import Mathlib

/-!
Verification of the core state logic of the Face Mask Detection System
(`src/App.tsx`): the detection simulator, the statistics aggregator, the
alert log and the per-second tick driver.

Numbers produced by the simulator (coordinates, confidence, compliance
rate) are modelled as rationals; the cumulative counters are naturals.
The `Math.random()` draws consumed by one tick are gathered in a `Draws`
record, each component ranging over `[0,1)`, and `Date.now()` /
`toLocaleTimeString()` are passed in as explicit arguments.
-/

namespace FaceMask

/-- One synthesized detection record (interface `Detection` in App.tsx). -/
structure Detection where
  id : String
  x : ℚ
  y : ℚ
  width : ℚ
  height : ℚ
  hasMask : Bool
  confidence : ℚ
  timestamp : ℕ
  deriving Repr, DecidableEq

/-- Cumulative statistics (interface `Stats` in App.tsx). -/
structure Stats where
  totalDetections : ℕ
  maskedCount : ℕ
  unmaskedCount : ℕ
  complianceRate : ℚ
  deriving Repr, DecidableEq

/-- The zero statistics used by `useState` initialisation and by `resetStats`. -/
def initialStats : Stats :=
  { totalDetections := 0, maskedCount := 0, unmaskedCount := 0, complianceRate := 0 }

/-- `newTotal > 0 ? (newMasked / newTotal) * 100 : 0` from `updateStats`. -/
def rate (masked total : ℕ) : ℚ :=
  if total > 0 then ((masked : ℚ) / (total : ℚ)) * 100 else 0

/-- `updateStats` from App.tsx: fold one detection batch into the counters and
recompute the compliance rate. -/
def updateStats (prev : Stats) (currentDetections : List Detection) : Stats :=
  let newTotal := prev.totalDetections + currentDetections.length
  let newMasked := prev.maskedCount + (currentDetections.filter (fun d => d.hasMask)).length
  let newUnmasked := prev.unmaskedCount + (currentDetections.filter (fun d => !d.hasMask)).length
  { totalDetections := newTotal
    maskedCount := newMasked
    unmaskedCount := newUnmasked
    complianceRate := rate newMasked newTotal }

/-- The statistics obtained from the zero state after folding a sequence of
tick batches through `updateStats`. -/
def statsAfter (batches : List (List Detection)) : Stats :=
  batches.foldl updateStats initialStats

/-- In a batch, the masked detections and the unmasked detections together
account for every element. -/
theorem filter_mask_split (l : List Detection) :
    (l.filter (fun d => d.hasMask)).length
      + (l.filter (fun d => !d.hasMask)).length = l.length := by
  induction l with
  | nil => rfl
  | cons a t ih =>
    cases ha : a.hasMask <;> simp [List.filter_cons, ha] <;> omega

/-- One `updateStats` step preserves the counter balance. -/
theorem updateStats_balance (s : Stats) (b : List Detection)
    (h : s.maskedCount + s.unmaskedCount = s.totalDetections) :
    (updateStats s b).maskedCount + (updateStats s b).unmaskedCount
      = (updateStats s b).totalDetections := by
  have hb := filter_mask_split b
  simp only [updateStats]
  omega

/-- Folding any batch list from a balanced state stays balanced. -/
theorem foldl_balance (batches : List (List Detection)) :
    ∀ s : Stats, s.maskedCount + s.unmaskedCount = s.totalDetections →
      (batches.foldl updateStats s).maskedCount
        + (batches.foldl updateStats s).unmaskedCount
        = (batches.foldl updateStats s).totalDetections := by
  induction batches with
  | nil => intro s h; simpa using h
  | cons b t ih =>
    intro s h
    simpa [List.foldl_cons] using ih (updateStats s b) (updateStats_balance s b h)

/-- C1: for every sequence of ticks starting from the zero `Stats`, after every
update by the stats aggregator the counters satisfy
`maskedCount + unmaskedCount = totalDetections`. -/
theorem C1_counter_balance (batches : List (List Detection)) :
    (statsAfter batches).maskedCount + (statsAfter batches).unmaskedCount
      = (statsAfter batches).totalDetections := by
  simpa [statsAfter] using foldl_balance batches initialStats (by simp [initialStats])

/-- Bounds for the compliance rate computed by `rate` when the masked count
does not exceed the total. -/
theorem rate_mem_range (masked total : ℕ) (h : masked ≤ total) :
    0 ≤ rate masked total ∧ rate masked total ≤ 100 := by
  unfold rate
  split
  · rename_i hpos
    have h0 : (0 : ℚ) < (total : ℚ) := by exact_mod_cast hpos
    have hle : (masked : ℚ) ≤ (total : ℚ) := by exact_mod_cast h
    constructor
    · positivity
    · have hdiv : (masked : ℚ) / (total : ℚ) ≤ 1 := (div_le_one h0).mpr hle
      nlinarith
  · norm_num

/-- The compliance rate computed by `rate` vanishes exactly when the masked
count does, provided the masked count does not exceed the total. -/
theorem rate_eq_zero_iff (masked total : ℕ) (h : masked ≤ total) :
    rate masked total = 0 ↔ masked = 0 := by
  unfold rate
  split
  · rename_i hpos
    have h0 : ((total : ℚ)) ≠ 0 := by
      exact_mod_cast hpos.ne'
    constructor
    · intro hz
      have : (masked : ℚ) / (total : ℚ) = 0 := by
        by_contra hne
        have : (masked : ℚ) / (total : ℚ) * 100 ≠ 0 := by
          exact mul_ne_zero hne (by norm_num)
        exact this hz
      have hm : (masked : ℚ) = 0 := by
        rcases div_eq_zero_iff.mp this with hm | ht
        · exact hm
        · exact absurd ht h0
      exact_mod_cast hm
    · intro hm
      subst hm
      simp
  · rename_i hnpos
    have : total = 0 := by omega
    subst this
    have : masked = 0 := Nat.le_zero.mp h
    simp [this]

/-- The combined invariant carried through the tick sequence for C2: counter
balance plus the compliance-rate properties. -/
def StatsInv (s : Stats) : Prop :=
  s.maskedCount + s.unmaskedCount = s.totalDetections ∧
  0 ≤ s.complianceRate ∧ s.complianceRate ≤ 100 ∧
  (s.complianceRate = 0 ↔ s.maskedCount = 0)

/-- One `updateStats` step preserves `StatsInv`. -/
theorem updateStats_inv (s : Stats) (b : List Detection) (h : StatsInv s) :
    StatsInv (updateStats s b) := by
  obtain ⟨hbal, -, -, -⟩ := h
  have hbal' := updateStats_balance s b hbal
  have hle : (updateStats s b).maskedCount ≤ (updateStats s b).totalDetections := by omega
  have hrate : (updateStats s b).complianceRate
      = rate (updateStats s b).maskedCount (updateStats s b).totalDetections := by
    simp [updateStats]
  refine ⟨hbal', ?_, ?_, ?_⟩
  · rw [hrate]; exact (rate_mem_range _ _ hle).1
  · rw [hrate]; exact (rate_mem_range _ _ hle).2
  · rw [hrate]; exact rate_eq_zero_iff _ _ hle

/-- Folding any batch list preserves `StatsInv`. -/
theorem foldl_inv (batches : List (List Detection)) :
    ∀ s : Stats, StatsInv s → StatsInv (batches.foldl updateStats s) := by
  induction batches with
  | nil => intro s h; simpa using h
  | cons b t ih =>
    intro s h
    simpa [List.foldl_cons] using ih (updateStats s b) (updateStats_inv s b h)

/-- `StatsInv` holds at the zero state. -/
theorem initialStats_inv : StatsInv initialStats := by
  refine ⟨rfl, le_refl 0, by norm_num [initialStats], ?_⟩
  simp [initialStats]

/-- A single unmasked detection used as a concrete input in several results. -/
def sampleUnmasked : Detection :=
  { id := "face-0", x := 100, y := 100, width := 90, height := 110,
    hasMask := false, confidence := 8/10, timestamp := 0 }

/-- A single masked detection used as a concrete input in several results. -/
def sampleMasked : Detection :=
  { id := "face-1", x := 200, y := 150, width := 100, height := 120,
    hasMask := true, confidence := 9/10, timestamp := 1 }

/-- C2 counterexample: the state reached from zero by one update with a single
unmasked detection has compliance rate 0 while `totalDetections = 1 ≠ 0`, so
the compliance rate does not equal 0 exactly when `totalDetections` is 0. -/
theorem C2_counterexample :
    (statsAfter [[sampleUnmasked]]).complianceRate = 0 ∧
    (statsAfter [[sampleUnmasked]]).totalDetections ≠ 0 := by
  constructor
  · simp [statsAfter, updateStats, initialStats, sampleUnmasked, rate]
  · simp [statsAfter, updateStats, initialStats, sampleUnmasked]

/-- C2 (amended): in every `Stats` state reachable by updates from the zero
state, the compliance rate lies in `[0,100]` and equals 0 exactly when
`maskedCount` is 0. -/
theorem C2_compliance_range (batches : List (List Detection)) :
    0 ≤ (statsAfter batches).complianceRate ∧
    (statsAfter batches).complianceRate ≤ 100 ∧
    ((statsAfter batches).complianceRate = 0 ↔ (statsAfter batches).maskedCount = 0) := by
  have h := foldl_inv batches initialStats initialStats_inv
  exact ⟨h.2.1, h.2.2.1, h.2.2.2⟩

/-- C7: `updateStats` is order-independent across two batches and agrees with a
single update on their concatenation, compliance rate included. -/
theorem C7_update_comm (s : Stats) (b1 b2 : List Detection) :
    updateStats (updateStats s b1) b2 = updateStats (updateStats s b2) b1 ∧
    updateStats (updateStats s b1) b2 = updateStats s (b1 ++ b2) := by
  constructor <;>
  · simp only [updateStats, List.filter_append, List.length_append, Stats.mk.injEq]
    refine ⟨by omega, by omega, by omega, ?_⟩
    congr 1 <;> omega

/-- The `Math.random()` results consumed by one call of `simulateDetection`,
in the order the code draws them. -/
structure Draws where
  presence : ℚ
  xDraw : ℚ
  yDraw : ℚ
  widthDraw : ℚ
  heightDraw : ℚ
  maskDraw : ℚ
  confidenceDraw : ℚ
  deriving Repr, DecidableEq

/-- A value the JavaScript `Math.random()` can return: in `[0,1)`. -/
def inUnit (q : ℚ) : Prop := 0 ≤ q ∧ q < 1

/-- All seven draws of a tick are `Math.random()` results. -/
def Draws.valid (d : Draws) : Prop :=
  inUnit d.presence ∧ inUnit d.xDraw ∧ inUnit d.yDraw ∧ inUnit d.widthDraw ∧
  inUnit d.heightDraw ∧ inUnit d.maskDraw ∧ inUnit d.confidenceDraw

/-- The detection record literal built inside `simulateDetection`. -/
def mkDetection (d : Draws) (now : ℕ) : Detection :=
  { id := "face-" ++ toString now
    x := d.xDraw * 500 + 50
    y := d.yDraw * 300 + 50
    width := 80 + d.widthDraw * 40
    height := 100 + d.heightDraw * 40
    hasMask := if (3 : ℚ)/10 < d.maskDraw then true else false
    confidence := d.confidenceDraw * (3/10) + 7/10
    timestamp := now }

/-- The detection batch produced by `simulateDetection`: empty unless
`Math.random() > 0.6` says a person is present, else a single record. -/
def simulateDetection (d : Draws) (now : ℕ) : List Detection :=
  if (6 : ℚ)/10 < d.presence then [mkDetection d now] else []

/-- The alert message built in `simulateDetection` from the current local
time string. -/
def formatAlert (timeStr : String) : String :=
  "Alert: No mask detected at " ++ timeStr

/-- The alert-log update of `simulateDetection`: on an unmasked detection,
prepend the formatted message and keep only the previous four entries
(`[alertMessage, ...prev.slice(0, 4)]`); otherwise leave the log alone. -/
def recordAlert (det : Detection) (timeStr : String) (log : List String) : List String :=
  if det.hasMask then log else formatAlert timeStr :: log.take 4

/-- The `useState` pieces of the `App` component that the core logic touches. -/
structure AppState where
  isDetecting : Bool
  detections : List Detection
  stats : Stats
  alerts : List String
  sensitivity : ℚ
  showSettings : Bool
  deriving Repr, DecidableEq

/-- One run of `simulateDetection` with all its state updates: clear the
displayed detections when nobody is present, otherwise display the one
detection, record an alert if it is unmasked and fold it into the stats. -/
def tick (s : AppState) (d : Draws) (now : ℕ) (timeStr : String) : AppState :=
  if (6 : ℚ)/10 < d.presence then
    let det := mkDetection d now
    { s with
      alerts := recordAlert det timeStr s.alerts
      detections := [det]
      stats := updateStats s.stats [det] }
  else
    { s with detections := [] }

/-- The events that drive the component: the interval timer (which runs the
tick pipeline only while `isDetecting` holds, since the `useEffect` cleanup
cancels the interval otherwise), the start/stop toggle, and the
reset-statistics button. -/
inductive Event where
  | timer (d : Draws) (now : ℕ) (timeStr : String)
  | toggle
  | reset

/-- The transition function of the component over `Event`s: a timer firing is
a tick only while detecting, `toggleDetection` flips the flag, and
`resetStats` zeroes the stats and empties the alert log. -/
def step (s : AppState) : Event → AppState
  | Event.timer d now t => if s.isDetecting then tick s d now t else s
  | Event.toggle => { s with isDetecting := !s.isDetecting }
  | Event.reset => { s with stats := initialStats, alerts := [] }

/-- C3: with all draws in `[0,1)`, `simulateDetection` returns the empty batch
when the presence draw does not exceed 0.6, otherwise exactly one detection
whose box lies in `x ∈ [50,550]`, `y ∈ [50,350]`, `width ∈ [80,120]`,
`height ∈ [100,140]`, whose confidence lies in `[0.7,1]` and whose mask
status is true exactly when the mask draw exceeds 0.3; the batch never has
more than one element. -/
theorem C3_simulate_spec (d : Draws) (now : ℕ) (hv : d.valid) :
    (d.presence ≤ 6/10 → simulateDetection d now = []) ∧
    (6/10 < d.presence → ∃ det : Detection, simulateDetection d now = [det] ∧
      50 ≤ det.x ∧ det.x ≤ 550 ∧ 50 ≤ det.y ∧ det.y ≤ 350 ∧
      80 ≤ det.width ∧ det.width ≤ 120 ∧ 100 ≤ det.height ∧ det.height ≤ 140 ∧
      7/10 ≤ det.confidence ∧ det.confidence ≤ 1 ∧
      (det.hasMask = true ↔ 3/10 < d.maskDraw)) ∧
    (simulateDetection d now).length ≤ 1 := by
  obtain ⟨hp, hx, hy, hw, hh, hm, hc⟩ := hv
  refine ⟨?_, ?_, ?_⟩
  · intro h
    simp [simulateDetection, not_lt.mpr h]
  · intro h
    refine ⟨mkDetection d now, by simp [simulateDetection, h], ?_, ?_, ?_, ?_, ?_, ?_,
      ?_, ?_, ?_, ?_, ?_⟩
    · simp only [mkDetection]; nlinarith [hx.1]
    · simp only [mkDetection]; nlinarith [hx.2]
    · simp only [mkDetection]; nlinarith [hy.1]
    · simp only [mkDetection]; nlinarith [hy.2]
    · simp only [mkDetection]; nlinarith [hw.1]
    · simp only [mkDetection]; nlinarith [hw.2]
    · simp only [mkDetection]; nlinarith [hh.1]
    · simp only [mkDetection]; nlinarith [hh.2]
    · simp only [mkDetection]; nlinarith [hc.1]
    · simp only [mkDetection]; nlinarith [hc.2]
    · by_cases hmd : (3 : ℚ)/10 < d.maskDraw <;> simp [mkDetection, hmd]
  · unfold simulateDetection
    split <;> simp

/-- A fixed valid draw record with a person present, used by witnesses. -/
def presentDraws : Draws :=
  { presence := 7/10, xDraw := 1/2, yDraw := 1/2, widthDraw := 1/2,
    heightDraw := 1/2, maskDraw := 1/2, confidenceDraw := 1/2 }

/-- A fixed valid draw record with nobody present, used by witnesses. -/
def absentDraws : Draws :=
  { presence := 1/2, xDraw := 0, yDraw := 0, widthDraw := 0,
    heightDraw := 0, maskDraw := 0, confidenceDraw := 0 }

/-- C3 witness: the specification holds at a concrete valid draw record. -/
theorem C3_simulate_witness : (simulateDetection presentDraws 0).length ≤ 1 :=
  (C3_simulate_spec presentDraws 0
    (by norm_num [Draws.valid, presentDraws, inUnit])).2.2

/-- C4: on an unmasked detection, `recordAlert` prepends exactly one formatted
entry and keeps only the four newest previous entries, so the result never
exceeds five entries; on a masked detection the log is unchanged; a log of at
most five entries stays at most five entries. -/
theorem C4_recordAlert_spec (log : List String) (det : Detection) (t : String) :
    (det.hasMask = true → recordAlert det t log = log) ∧
    (det.hasMask = false →
      recordAlert det t log = formatAlert t :: log.take 4 ∧
      (recordAlert det t log).length ≤ 5) ∧
    (log.length ≤ 5 → (recordAlert det t log).length ≤ 5) := by
  refine ⟨?_, ?_, ?_⟩
  · intro h
    simp [recordAlert, h]
  · intro h
    refine ⟨by simp [recordAlert, h], ?_⟩
    simp only [recordAlert, h, Bool.false_eq_true, if_false, List.length_cons,
      List.length_take]
    omega
  · intro h
    cases hm : det.hasMask <;>
      simp only [recordAlert, hm, if_true, Bool.false_eq_true, if_false,
        List.length_cons, List.length_take] <;>
      omega

/-- C4 witness: recording an unmasked detection on a full five-entry log
prepends the formatted message and drops the oldest entry. -/
theorem C4_recordAlert_witness :
    recordAlert sampleUnmasked "10:00:00" ["a", "b", "c", "d", "e"]
      = formatAlert "10:00:00" :: ["a", "b", "c", "d"] :=
  ((C4_recordAlert_spec ["a", "b", "c", "d", "e"] sampleUnmasked "10:00:00").2.1 rfl).1

/-- C5: from every prior state, the reset action zeroes all four statistics
fields and empties the alert log. -/
theorem C5_reset_zeroes (s : AppState) :
    (step s Event.reset).stats.totalDetections = 0 ∧
    (step s Event.reset).stats.maskedCount = 0 ∧
    (step s Event.reset).stats.unmaskedCount = 0 ∧
    (step s Event.reset).stats.complianceRate = 0 ∧
    (step s Event.reset).alerts = [] := by
  simp [step, initialStats]

/-- C6: a tick whose detection batch is empty leaves the stats and the alert
log unchanged and sets the displayed detection list to empty. -/
theorem C6_empty_tick_frame (s : AppState) (d : Draws) (now : ℕ) (t : String)
    (h : simulateDetection d now = []) :
    (tick s d now t).stats = s.stats ∧
    (tick s d now t).alerts = s.alerts ∧
    (tick s d now t).detections = [] := by
  have hc : ¬((6 : ℚ)/10 < d.presence) := by
    intro hc
    simp [simulateDetection, hc] at h
  simp [tick, hc]

/-- A concrete populated application state used by witnesses. -/
def sampleState : AppState :=
  { isDetecting := true, detections := [sampleMasked],
    stats := updateStats initialStats [sampleMasked],
    alerts := ["old alert"], sensitivity := 7/10, showSettings := false }

/-- C6 witness: the empty-tick frame property at a concrete state and draw. -/
theorem C6_empty_tick_witness :
    (tick sampleState absentDraws 5 "10:00:01").stats = sampleState.stats ∧
    (tick sampleState absentDraws 5 "10:00:01").alerts = sampleState.alerts ∧
    (tick sampleState absentDraws 5 "10:00:01").detections = [] :=
  C6_empty_tick_frame sampleState absentDraws 5 "10:00:01"
    (by norm_num [simulateDetection, absentDraws])

/-- C8: two runs of the tick pipeline from states that differ only in the
sensitivity setting (both in `[0.5,1]`), fed the same draws and timestamps,
produce the same detections, the same stats and the same alert log. -/
theorem C8_sensitivity_noninterference (s : AppState) (q1 q2 : ℚ)
    (d : Draws) (now : ℕ) (t : String)
    (h1 : 1/2 ≤ q1 ∧ q1 ≤ 1) (h2 : 1/2 ≤ q2 ∧ q2 ≤ 1) :
    (tick { s with sensitivity := q1 } d now t).detections
      = (tick { s with sensitivity := q2 } d now t).detections ∧
    (tick { s with sensitivity := q1 } d now t).stats
      = (tick { s with sensitivity := q2 } d now t).stats ∧
    (tick { s with sensitivity := q1 } d now t).alerts
      = (tick { s with sensitivity := q2 } d now t).alerts := by
  by_cases hc : (6 : ℚ)/10 < d.presence <;> simp [tick, hc]

/-- C8 witness: sensitivity 0.5 and sensitivity 1 give identical outputs at a
concrete state and draw. -/
theorem C8_sensitivity_witness :
    (tick { sampleState with sensitivity := 1/2 } presentDraws 9 "10:00:09").detections
      = (tick { sampleState with sensitivity := 1 } presentDraws 9 "10:00:09").detections ∧
    (tick { sampleState with sensitivity := 1/2 } presentDraws 9 "10:00:09").stats
      = (tick { sampleState with sensitivity := 1 } presentDraws 9 "10:00:09").stats ∧
    (tick { sampleState with sensitivity := 1/2 } presentDraws 9 "10:00:09").alerts
      = (tick { sampleState with sensitivity := 1 } presentDraws 9 "10:00:09").alerts :=
  C8_sensitivity_noninterference sampleState (1/2) 1 presentDraws 9 "10:00:09"
    (by norm_num) (by norm_num)

/-- C9 counterexample: stopping detection does not clear the currently
displayed detection list — toggling off from a state showing one detection
leaves that detection displayed. -/
theorem C9_counterexample :
    (step sampleState Event.toggle).isDetecting = false ∧
    (step sampleState Event.toggle).detections ≠ [] := by
  constructor
  · simp [step, sampleState]
  · simp [step, sampleState]

/-- C9 (amended): while the detecting flag is false a timer firing has no
effect, and toggling the flag (stopping or restarting) leaves the stats, the
displayed detections and the alert log unchanged — in particular restarting
does not reset the stats, and stopping leaves the display as it was rather
than clearing it. -/
theorem C9_stop_semantics (s : AppState) (d : Draws) (now : ℕ) (t : String) :
    (s.isDetecting = false → step s (Event.timer d now t) = s) ∧
    (step s Event.toggle).stats = s.stats ∧
    (step s Event.toggle).detections = s.detections ∧
    (step s Event.toggle).alerts = s.alerts := by
  refine ⟨?_, by simp [step], by simp [step], by simp [step]⟩
  intro h
  simp [step, h]

/-- A concrete stopped state used by the C9 witness. -/
def stoppedState : AppState :=
  { sampleState with isDetecting := false }

/-- C9 witness: at a concrete stopped state a timer firing changes nothing. -/
theorem C9_stop_witness :
    step stoppedState (Event.timer presentDraws 3 "10:00:03") = stoppedState :=
  (C9_stop_semantics stoppedState presentDraws 3 "10:00:03").1 rfl

/-- C10: the reset action leaves the displayed detection list, the detecting
flag, the sensitivity and the settings-panel flag unchanged: it touches only
the stats and the alert log. -/
theorem C10_reset_frame (s : AppState) :
    (step s Event.reset).detections = s.detections ∧
    (step s Event.reset).isDetecting = s.isDetecting ∧
    (step s Event.reset).sensitivity = s.sensitivity ∧
    (step s Event.reset).showSettings = s.showSettings := by
  simp [step]

end FaceMask
